import Mathlib

/-!
Shallow embedding of the authentication / authorization / account-lifecycle
core of the home_stats backend, and proofs about it.

The embedding follows the source files:
  src/core/permissions.py     (Permission, Role, ROLE_PERMISSIONS)
  src/core/security.py        (JWT create/verify, password hash/verify)
  src/db/repositories/user_repo.py (UserRepository: SQL over users / user_permissions)
  src/services/auth.py        (AuthService)
  src/services/user_cleanup.py (DataCleanupService)
  src/api/v1/endpoints/admin.py (grant_permission endpoint body)
  src/models/token.py         (pydantic TokenResponse)

Database tables are modelled as Lean lists of rows; each repository method is a
pure function over the whole database value, with the wall clock passed
explicitly (an `Int` of seconds).  Python runtime failures that the code can
actually hit (raised HTTPException, pydantic ValidationError on a missing
required field, TypeError from hashing an unhashable dict, ValueError from
int(), AttributeError from calling .decode on a str digest) are modelled with
`Except PyErr`.
-/

set_option autoImplicit false

namespace HomeStats

/-- `Permission` enum from src/core/permissions.py. -/
inductive Permission where
  | USER_READ_OWN_PROFILE
  | USER_UPDATE_OWN_PROFILE
  | USER_DELETE_OWN_ACCOUNT
  | MUSIC_READ_OWN_DATA
  | MUSIC_SYNC_OWN_SPOTIFY
  | MUSIC_DELETE_OWN_DATA
  | AI_GENERATE_OWN_INSIGHTS
  | ADMIN_READ_ALL_USERS
  | ADMIN_DELETE_ANY_USER
  | ADMIN_VIEW_SYSTEM_STATS
  | ADMIN_MANAGE_API_KEYS
  | ADMIN_MANAGE_PERMISSIONS
  | ADMIN_MANAGE_SYSTEM
  deriving DecidableEq

/-- The string value of each `Permission` member (the enum is a str-Enum). -/
def Permission.value : Permission → String
  | .USER_READ_OWN_PROFILE => "user:read_own_profile"
  | .USER_UPDATE_OWN_PROFILE => "user:update_own_profile"
  | .USER_DELETE_OWN_ACCOUNT => "user:delete_own_account"
  | .MUSIC_READ_OWN_DATA => "user:read_music_data"
  | .MUSIC_SYNC_OWN_SPOTIFY => "user:sync_own_spotify"
  | .MUSIC_DELETE_OWN_DATA => "user:delete_music_data"
  | .AI_GENERATE_OWN_INSIGHTS => "user:gen_insights"
  | .ADMIN_READ_ALL_USERS => "admin:read_all_users"
  | .ADMIN_DELETE_ANY_USER => "admin:delete_user"
  | .ADMIN_VIEW_SYSTEM_STATS => "admin:system_stats"
  | .ADMIN_MANAGE_API_KEYS => "admin:api_keys"
  | .ADMIN_MANAGE_PERMISSIONS => "admin:permissions"
  | .ADMIN_MANAGE_SYSTEM => "admin:system"

/-- `Role` enum from src/core/permissions.py. -/
inductive Role where
  | user
  | admin
  | system
  deriving DecidableEq

/-- `ROLE_PERMISSIONS` dict from src/core/permissions.py, together with the
`.get(role, [])` default used at the call site in AuthService (the dict has no
entry for `Role.SYSTEM`, so that role resolves to the empty baseline). -/
def ROLE_PERMISSIONS : Role → List Permission
  | .user =>
    [ .USER_READ_OWN_PROFILE, .USER_UPDATE_OWN_PROFILE, .USER_DELETE_OWN_ACCOUNT,
      .MUSIC_READ_OWN_DATA, .MUSIC_SYNC_OWN_SPOTIFY, .MUSIC_DELETE_OWN_DATA,
      .AI_GENERATE_OWN_INSIGHTS ]
  | .admin =>
    [ .USER_READ_OWN_PROFILE, .USER_UPDATE_OWN_PROFILE, .USER_DELETE_OWN_ACCOUNT,
      .MUSIC_READ_OWN_DATA, .MUSIC_SYNC_OWN_SPOTIFY, .MUSIC_DELETE_OWN_DATA,
      .AI_GENERATE_OWN_INSIGHTS, .ADMIN_READ_ALL_USERS, .ADMIN_DELETE_ANY_USER,
      .ADMIN_VIEW_SYSTEM_STATS, .ADMIN_MANAGE_API_KEYS, .ADMIN_MANAGE_PERMISSIONS,
      .ADMIN_MANAGE_SYSTEM ]
  | .system => []

/-- A bcrypt digest (src/core/security.py `hash_password`).  The digest is
modelled as an opaque value determined by the plaintext; `verify_password`
succeeds exactly on the plaintext it was produced from, which is bcrypt's
functional contract. -/
structure HashedPassword where
  digest_of : String
  deriving DecidableEq

/-- `hash_password` from src/core/security.py (pwd_context.hash). -/
def hash_password (password : String) : HashedPassword :=
  { digest_of := password }

/-- `verify_password` from src/core/security.py (pwd_context.verify). -/
def verify_password (plain_password : String) (hashed_password : HashedPassword) : Bool :=
  hashed_password.digest_of == plain_password

/-- One row of the `users` table (schema used by user_repo.py). -/
structure UserRow where
  id : Nat
  email : String
  hashed_password : HashedPassword
  is_active : Bool
  deleted_at : Option Int
  deletion_reason : Option String
  role : Role
  created_at : Int
  last_login : Option Int
  deriving DecidableEq

/-- One row of the `user_permissions` table (schema used by user_repo.py). -/
structure UserPermissionRow where
  id : Nat
  user_id : Nat
  permission : String
  granted_at : Int
  granted_by : Nat
  deriving DecidableEq

/-- The backing store: both tables plus the id sequences. -/
structure DB where
  users : List UserRow
  user_permissions : List UserPermissionRow
  next_user_id : Nat
  next_permission_id : Nat
  deriving DecidableEq

/-- Python-level failures the embedded code can raise:
`http s` is a raised `HTTPException(status_code = s)` (detail strings dropped),
plus pydantic `ValidationError`, `TypeError`, `ValueError` and
`AttributeError`. -/
inductive PyErr where
  | http (status : Nat)
  | validationError
  | typeError
  | valueError
  | attributeError
  deriving DecidableEq

/-- Decidable equality on `Except`, so concrete runs of the embedded
operations can be settled by `decide`. -/
instance {ε α : Type} [DecidableEq ε] [DecidableEq α] : DecidableEq (Except ε α) :=
  fun x y =>
    match x, y with
    | Except.ok a, Except.ok b =>
      if h : a = b then isTrue (h ▸ rfl)
      else isFalse (fun hc => h (Except.ok.inj hc))
    | Except.error a, Except.error b =>
      if h : a = b then isTrue (h ▸ rfl)
      else isFalse (fun hc => h (Except.error.inj hc))
    | Except.ok _, Except.error _ => isFalse (fun hc => Except.noConfusion hc)
    | Except.error _, Except.ok _ => isFalse (fun hc => Except.noConfusion hc)

/-- Python `value.decode('utf-8')` on the digest returned by
`hash_password`.  passlib's `CryptContext.hash` returns `str` on Python 3,
and `str` has no `.decode` method, so this attribute access raises
AttributeError unconditionally. -/
def pyStrDecode (_digest : HashedPassword) : Except PyErr HashedPassword :=
  Except.error PyErr.attributeError

namespace UserRepository

/-- `UserRepository.create_user`: first evaluates
`hashed_password.decode('utf-8')` for the INSERT parameters
(user_repo.py:25) — which raises AttributeError, because the digest is
already a `str` — and only then would run INSERT INTO users (email,
hashed_password, created_at, is_active) VALUES (…, …, now, true)
RETURNING id, the remaining columns taking their schema defaults
(`deleted_at` / `deletion_reason` / `last_login` NULL, `role` 'user'). -/
def create_user (db : DB) (email password : String) (now : Int) :
    Except PyErr (Nat × DB) :=
  match pyStrDecode (hash_password password) with
  | Except.error e => Except.error e
  | Except.ok digest =>
    let uid := db.next_user_id
    let row : UserRow :=
      { id := uid, email := email, hashed_password := digest,
        is_active := true, deleted_at := none, deletion_reason := none,
        role := Role.user, created_at := now, last_login := none }
    Except.ok (uid, { db with users := db.users ++ [row], next_user_id := uid + 1 })

/-- `UserRepository.get_user_by_id`: point SELECT on id; the default
`include_deleted = false` branch additionally requires
`is_active = true AND deleted_at IS NULL`. -/
def get_user_by_id (db : DB) (user_id : Nat) (include_deleted : Bool := false) :
    Option UserRow :=
  if include_deleted then
    db.users.find? (fun u => u.id == user_id)
  else
    db.users.find? (fun u => u.id == user_id && u.is_active && u.deleted_at.isNone)

/-- `UserRepository.get_user_by_email`: SELECT … WHERE email = %s, with no
filter on `is_active` or `deleted_at`. -/
def get_user_by_email (db : DB) (email : String) : Option UserRow :=
  db.users.find? (fun u => u.email == email)

/-- Row transformation of the soft-delete UPDATE: rows matching the id get
deleted_at = now, deletion_reason = reason, is_active = false. -/
def soft_delete_update (user_id : Nat) (deletion_reason : String) (now : Int)
    (u : UserRow) : UserRow :=
  if u.id == user_id then
    { u with deleted_at := some now, deletion_reason := some deletion_reason,
             is_active := false }
  else u

/-- `UserRepository.soft_delete_user`: UPDATE users SET deleted_at = now,
deletion_reason = reason, is_active = false WHERE id = %s; returns
`rowcount > 0`. -/
def soft_delete_user (db : DB) (user_id : Nat) (deletion_reason : String)
    (now : Int) : Bool × DB :=
  (db.users.any (fun u => u.id == user_id),
   { db with users := db.users.map (soft_delete_update user_id deletion_reason now) })

/-- Row transformation of the recover UPDATE: rows matching the id get
deleted_at = NULL, deletion_reason = NULL, is_active = true. -/
def recover_update (user_id : Nat) (u : UserRow) : UserRow :=
  if u.id == user_id then
    { u with deleted_at := none, deletion_reason := none, is_active := true }
  else u

/-- `UserRepository.recover_user`: UPDATE users SET deleted_at = NULL,
deletion_reason = NULL, is_active = true WHERE id = %s RETURNING id; returns
whether a row matched. -/
def recover_user (db : DB) (user_id : Nat) : Bool × DB :=
  (db.users.any (fun u => u.id == user_id),
   { db with users := db.users.map (recover_update user_id) })

/-- `UserRepository.hard_delete_user`: DELETE FROM user_permissions WHERE
user_id = %s; DELETE FROM users WHERE id = %s; one transaction; returns
`rowcount > 0` of the users delete. -/
def hard_delete_user (db : DB) (user_id : Nat) : Bool × DB :=
  (db.users.any (fun u => u.id == user_id),
   { db with
      users := db.users.filter (fun u => !(u.id == user_id)),
      user_permissions := db.user_permissions.filter (fun g => !(g.user_id == user_id)) })

/-- `UserRepository.get_user_permissions`: SELECT rows of `user_permissions`
for one user.  Note: it returns whole rows (dicts), not permission strings. -/
def get_user_permissions (db : DB) (user_id : Nat) : List UserPermissionRow :=
  db.user_permissions.filter (fun g => g.user_id == user_id)

/-- `UserRepository.grant_user_permission`: INSERT INTO user_permissions …
RETURNING the new row. -/
def grant_user_permission (db : DB) (user_id : Nat) (permission : Permission)
    (granted_by : Nat) (now : Int) : UserPermissionRow × DB :=
  let row : UserPermissionRow :=
    { id := db.next_permission_id, user_id := user_id,
      permission := permission.value, granted_at := now, granted_by := granted_by }
  (row, { db with user_permissions := db.user_permissions ++ [row],
                  next_permission_id := db.next_permission_id + 1 })

/-- `UserRepository.revoke_user_permission`: DELETE FROM user_permissions WHERE
user_id = %s AND permission = %s; returns `rowcount > 0`. -/
def revoke_user_permission (db : DB) (user_id : Nat) (permission : Permission) :
    Bool × DB :=
  let keep := fun (g : UserPermissionRow) =>
    !(g.user_id == user_id && g.permission == permission.value)
  (db.user_permissions.any
     (fun g => g.user_id == user_id && g.permission == permission.value),
   { db with user_permissions := db.user_permissions.filter keep })

/-- `UserRepository.user_has_permission`: SELECT 1 … WHERE user_id = %s AND
permission = %s LIMIT 1, as a boolean. -/
def user_has_permission (db : DB) (user_id : Nat) (permission : Permission) : Bool :=
  db.user_permissions.any
    (fun g => g.user_id == user_id && g.permission == permission.value)

/-- `UserRepository.get_expired_soft_deleted_users`: SELECT … WHERE
deleted_at IS NOT NULL AND deleted_at < cutoff AND is_active = false. -/
def get_expired_soft_deleted_users (db : DB) (cutoff_date : Int) : List UserRow :=
  db.users.filter (fun u =>
    (match u.deleted_at with
     | some t => decide (t < cutoff_date)
     | none => false) && u.is_active == false)

end UserRepository

/-- Configuration consumed by the credential codec (src/config/settings.py). -/
structure Settings where
  secret_key : String
  algorithm : String
  access_token_expiry_minutes : Int
  refresh_token_expiry_days : Int
  deriving DecidableEq

/-- The JWT payload dict as the code builds it: keys "sub", "exp" and
(for refresh tokens only) "type". -/
structure Claims where
  sub : Option String
  exp : Int
  type : Option String
  deriving DecidableEq

/-- A bearer token: either a payload signed with some key and algorithm
(jwt.encode), or an arbitrary non-JWT string. -/
inductive Token where
  | signed (claims : Claims) (key : String) (alg : String)
  | garbage (s : String)
  deriving DecidableEq

/-- `create_access_token` (src/core/security.py) at its call sites, which all
pass `data = {"sub": str(user_id)}` and no `expires_delta`:
exp = now + access_token_expiry_minutes minutes; no "type" claim. -/
def create_access_token (s : Settings) (now : Int) (sub : String) : Token :=
  Token.signed
    { sub := some sub, exp := now + s.access_token_expiry_minutes * 60, type := none }
    s.secret_key s.algorithm

/-- `create_refresh_token` (src/core/security.py) at its call sites:
exp = now + refresh_token_expiry_days days; "type" = "refresh". -/
def create_refresh_token (s : Settings) (now : Int) (sub : String) : Token :=
  Token.signed
    { sub := some sub, exp := now + s.refresh_token_expiry_days * 86400,
      type := some "refresh" }
    s.secret_key s.algorithm

/-- `verify_token` (src/core/security.py): jwt.decode with the configured key
and algorithm; any failure (bad signature, wrong algorithm, expired, malformed)
is caught and returned as None. -/
def verify_token (s : Settings) (now : Int) : Token → Option Claims
  | Token.signed c k a =>
    if k == s.secret_key && a == s.algorithm && now < c.exp then some c else none
  | Token.garbage _ => none

/-- The numeric value of a decimal digit character. -/
def pyDigit (c : Char) : Option Nat :=
  if c == '0' then some 0 else if c == '1' then some 1
  else if c == '2' then some 2 else if c == '3' then some 3
  else if c == '4' then some 4 else if c == '5' then some 5
  else if c == '6' then some 6 else if c == '7' then some 7
  else if c == '8' then some 8 else if c == '9' then some 9 else none

/-- Accumulate a decimal numeral; `none` on the first non-digit. -/
def pyIntAux : List Char → Nat → Option Nat
  | [], acc => some acc
  | c :: cs, acc =>
    match pyDigit c with
    | some d => pyIntAux cs (acc * 10 + d)
    | none => none

/-- Python `int(string)`: parses a (non-negative, here) decimal numeral,
raising ValueError on anything else. -/
def pyInt (s : String) : Except PyErr Nat :=
  match s.data with
  | [] => Except.error PyErr.valueError
  | cs =>
    match pyIntAux cs 0 with
    | some n => Except.ok n
    | none => Except.error PyErr.valueError

/-- Pydantic model `TokenResponse` (src/models/token.py).  Its fields:
`token`, `token_type` (default "Bearer"), `refresh_token`, `expires_in`,
`created_at` — `created_at` has no default, so it is required. -/
structure TokenResponse where
  token : Token
  token_type : String
  refresh_token : Token
  expires_in : Int
  created_at : Int
  deriving DecidableEq

/-- The keyword arguments passed to the `TokenResponse(...)` constructor,
`none` meaning the keyword was not supplied. -/
structure TokenResponseArgs where
  token : Option Token
  token_type : Option String
  refresh_token : Option Token
  expires_in : Option Int
  created_at : Option Int
  deriving DecidableEq

/-- Pydantic validation of a `TokenResponse(...)` call: a field with no
default that is not supplied raises ValidationError; `token_type` falls back
to its declared default "Bearer". -/
def TokenResponse.validate (a : TokenResponseArgs) : Except PyErr TokenResponse :=
  match a.token, a.refresh_token, a.expires_in, a.created_at with
  | some t, some r, some e, some c =>
    Except.ok { token := t, token_type := a.token_type.getD "Bearer",
                refresh_token := r, expires_in := e, created_at := c }
  | _, _, _, _ => Except.error PyErr.validationError

/-- A Python value that can appear in the list built by
`AuthService.get_user_permissions`: a `Permission` enum member (hashable) or a
`user_permissions` row dict (unhashable). -/
inductive PyVal where
  | perm (p : Permission)
  | row (g : UserPermissionRow)
  deriving DecidableEq

/-- Whether a `PyVal` is hashable: enum members are, dicts are not. -/
def PyVal.hashable : PyVal → Bool
  | .perm _ => true
  | .row _ => false

/-- Python `list(set(xs))`: deduplicates, but raises TypeError if any element
is unhashable (a dict). -/
def pySet (xs : List PyVal) : Except PyErr (List PyVal) :=
  if xs.all PyVal.hashable then Except.ok xs.dedup else Except.error PyErr.typeError

namespace AuthService

/-- `AuthService.authenticate_user`: email lookup (no is_active / deleted_at
filter) then password verification; None on any mismatch. -/
def authenticate_user (db : DB) (email password : String) : Option UserRow :=
  match UserRepository.get_user_by_email db email with
  | none => none
  | some user =>
    if verify_password password user.hashed_password then some user else none

/-- `AuthService.get_user_permissions`: default-visibility user lookup
(unknown user gives []), then `list(set(role_permissions + explicit_permissions))`
where `role_permissions` are `Permission` members and `explicit_permissions`
are the raw rows returned by the repository. -/
def get_user_permissions (db : DB) (user_id : Nat) : Except PyErr (List PyVal) :=
  match UserRepository.get_user_by_id db user_id false with
  | none => Except.ok []
  | some user =>
    let role_permissions := (ROLE_PERMISSIONS user.role).map PyVal.perm
    let explicit_permissions :=
      (UserRepository.get_user_permissions db user_id).map PyVal.row
    pySet (role_permissions ++ explicit_permissions)

/-- `AuthService.user_has_permission`: membership test in the combined list. -/
def user_has_permission (db : DB) (user_id : Nat) (permission : Permission) :
    Except PyErr Bool :=
  (get_user_permissions db user_id).map (fun l => l.contains (PyVal.perm permission))

/-- `AuthService.require_resource_ownership`: silent success on ownership;
otherwise the admin permission (when given) is checked; otherwise
HTTPException 403. -/
def require_resource_ownership (db : DB) (user_id resource_user_id : Nat)
    (admin_permission : Option Permission) : Except PyErr Unit :=
  if user_id == resource_user_id then Except.ok ()
  else
    match admin_permission with
    | some p =>
      match user_has_permission db user_id p with
      | Except.error e => Except.error e
      | Except.ok true => Except.ok ()
      | Except.ok false => Except.error (PyErr.http 403)
    | none => Except.error (PyErr.http 403)

/-- `AuthService.register_user`: 409 on an existing email, 400 on a password
shorter than 8, then create and read the row back (500 if the read-back
misses).  An exception raised inside `create_user` is not caught here and
propagates to the caller. -/
def register_user (db : DB) (email password : String) (now : Int) :
    Except PyErr (UserRow × DB) :=
  match UserRepository.get_user_by_email db email with
  | some _ => Except.error (PyErr.http 409)
  | none =>
    if password.length < 8 then Except.error (PyErr.http 400)
    else
      match UserRepository.create_user db email password now with
      | Except.error e => Except.error e
      | Except.ok r =>
        match UserRepository.get_user_by_id r.2 r.1 false with
        | none => Except.error (PyErr.http 500)
        | some user => Except.ok (user, r.2)

/-- The keyword arguments `AuthService.create_tokens` passes to
`TokenResponse(...)`: token, refresh_token, token_type = "bearer",
expires_in = access_token_expiry_minutes * 60 — and no `created_at`. -/
def create_tokens_kwargs (s : Settings) (now : Int) (user_id : Nat) :
    TokenResponseArgs :=
  { token := some (create_access_token s now (toString user_id)),
    token_type := some "bearer",
    refresh_token := some (create_refresh_token s now (toString user_id)),
    expires_in := some (s.access_token_expiry_minutes * 60),
    created_at := none }

/-- `AuthService.create_tokens`: builds both tokens and constructs the
pydantic `TokenResponse` from the keyword arguments above. -/
def create_tokens (s : Settings) (now : Int) (user_id : Nat) :
    Except PyErr TokenResponse :=
  TokenResponse.validate (create_tokens_kwargs s now user_id)

/-- `AuthService.refresh_access_token`: verify the token, require the "type"
claim to be exactly "refresh", require a "sub" claim, `int(...)` it, require
the subject to resolve through the default (active, non-deleted) user lookup,
then hand back `create_tokens`.  `Except.ok none` is the code's `return None`;
in the source the final call is returned without `await`, so its value here is
the value that awaiting the returned coroutine would produce. -/
def refresh_access_token (s : Settings) (db : DB) (now : Int)
    (refresh_token : Token) : Except PyErr (Option TokenResponse) :=
  match verify_token s now refresh_token with
  | none => Except.ok none
  | some payload =>
    if payload.type != some "refresh" then Except.ok none
    else
      match payload.sub with
      | none => Except.ok none
      | some sub =>
        match pyInt sub with
        | Except.error e => Except.error e
        | Except.ok uid =>
          match UserRepository.get_user_by_id db uid false with
          | none => Except.ok none
          | some _ => (create_tokens s now uid).map some

end AuthService

/-- Body of the `grant_permission` endpoint (src/api/v1/endpoints/admin.py):
404 if the target user is not visible to the default lookup, 409 if the
repository already has the (user, permission) row, else insert the grant. -/
def admin_grant_permission (db : DB) (user_id : Nat) (permission : Permission)
    (current_admin : Nat) (now : Int) : Except PyErr (UserPermissionRow × DB) :=
  match UserRepository.get_user_by_id db user_id false with
  | none => Except.error (PyErr.http 404)
  | some _ =>
    if UserRepository.user_has_permission db user_id permission then
      Except.error (PyErr.http 409)
    else
      Except.ok (UserRepository.grant_user_permission db user_id permission
        current_admin now)

namespace DataCleanupService

/-- One step of the loop in `cleanup_expired_deletions`: hard-delete one
expired user, counting it when the delete reports success.  (The per-user
try/except of the source only matters for raised storage errors, which the
pure store cannot produce.) -/
def cleanup_step (acc : Nat × DB) (u : UserRow) : Nat × DB :=
  let r := UserRepository.hard_delete_user acc.2 u.id
  (if r.1 then acc.1 + 1 else acc.1, r.2)

/-- `DataCleanupService.cleanup_expired_deletions`: cutoff = now − grace
period in days; fetch expired soft-deleted users; hard-delete each; return
the count deleted (paired here with the resulting store). -/
def cleanup_expired_deletions (grace_period_days : Int) (now : Int) (db : DB) :
    Nat × DB :=
  let cutoff_date := now - grace_period_days * 86400
  let expired_users := UserRepository.get_expired_soft_deleted_users db cutoff_date
  expired_users.foldl cleanup_step (0, db)

/-- The run-history record `last_cleanup_result` (a dict in the source). -/
structure CleanupResult where
  deleted_users : Nat
  duration_seconds : Int
  timestamp : Int
  status : String
  error : Option String
  deriving DecidableEq

/-- The scheduler's mutable fields (src/services/user_cleanup.py). -/
structure SchedulerState where
  last_cleanup : Option Int
  next_cleanup : Option Int
  last_cleanup_result : Option CleanupResult
  deriving DecidableEq

/-- How the awaited cleanup pass inside `_daily_cleanup_loop` can end: a
returned count, a raised exception, or task cancellation. -/
inductive PassOutcome where
  | success (deleted : Nat)
  | failure (msg : String)
  | cancelled
  deriving DecidableEq

/-- What the loop does after one iteration: run another iteration, or break. -/
inductive LoopControl where
  | again
  | stop
  deriving DecidableEq

/-- One iteration of `_daily_cleanup_loop` after the 24h sleep, as a function
of the pass outcome.  `startT` is the clock when the pass starts and `endT`
when the iteration's bookkeeping runs.  Success records the result and
reschedules; CancelledError breaks the loop; any other exception records a
"failed" result, reschedules next_cleanup, and the loop continues. -/
def loop_iteration (st : SchedulerState) (startT endT : Int)
    (outcome : PassOutcome) : SchedulerState × LoopControl :=
  match outcome with
  | PassOutcome.success n =>
    ({ last_cleanup := some startT,
       next_cleanup := some (endT + 86400),
       last_cleanup_result := some
         { deleted_users := n, duration_seconds := endT - startT,
           timestamp := startT, status := "success", error := none } },
     LoopControl.again)
  | PassOutcome.cancelled => (st, LoopControl.stop)
  | PassOutcome.failure e =>
    ({ st with
       next_cleanup := some (endT + 86400),
       last_cleanup_result := some
         { deleted_users := 0, duration_seconds := 0,
           timestamp := endT, status := "failed", error := some e } },
     LoopControl.again)

end DataCleanupService

/-! ### Helper lemmas -/

/-- `find?` over a mapped list, rewritten through a pointwise description of
the predicate after the map. -/
theorem find?_map_eq {α : Type} (l : List α) (f : α → α) (p q : α → Bool)
    (h : ∀ a, p (f a) = q a) :
    (l.map f).find? p = (l.find? q).map f := by
  rw [List.find?_map]
  have hpq : p ∘ f = q := funext h
  rw [hpq]

/-- `find?` returns the designated element when that element satisfies the
predicate and is the only member of the list that can. -/
theorem find?_eq_some_of_unique {α : Type} (l : List α) (p : α → Bool) (u : α)
    (hmem : u ∈ l) (hu : p u = true) (huniq : ∀ v ∈ l, p v = true → v = u) :
    l.find? p = some u := by
  induction l with
  | nil => cases hmem
  | cons a l ih =>
    by_cases ha : p a = true
    · have hau : a = u := huniq a (List.mem_cons_self a l) ha
      subst hau
      exact List.find?_cons_of_pos l ha
    · rw [List.find?_cons_of_neg l (by simpa using ha)]
      have hmem' : u ∈ l := by
        rcases List.mem_cons.mp hmem with h | h
        · exact absurd (h ▸ hu) ha
        · exact h
      exact ih hmem' (fun v hv hpv => huniq v (List.mem_cons_of_mem a hv) hpv)

/-- In a list of users whose ids are pairwise distinct, two members with the
same id are the same row. -/
theorem userRow_eq_of_nodup_ids (l : List UserRow)
    (hnodup : (l.map (fun v => v.id)).Nodup) (u v : UserRow)
    (hu : u ∈ l) (hv : v ∈ l) (h : u.id = v.id) : u = v :=
  List.inj_on_of_nodup_map hnodup hu hv h

/-- The `users` table after the cleanup fold: exactly the rows whose id is not
the id of any row in the processed list. -/
theorem cleanup_foldl_users (l : List UserRow) (acc : Nat × DB) :
    (l.foldl DataCleanupService.cleanup_step acc).2.users
      = acc.2.users.filter (fun v => !(l.any (fun e => v.id == e.id))) := by
  induction l generalizing acc with
  | nil => simp
  | cons e l ih =>
    rw [List.foldl_cons, ih]
    show ((acc.2.users.filter (fun v => !(v.id == e.id))).filter
        (fun v => !(l.any (fun w => v.id == w.id))))
      = acc.2.users.filter (fun v => !((e :: l).any (fun w => v.id == w.id)))
    rw [List.filter_filter]
    apply List.filter_congr
    intro x _
    simp only [List.any_cons, Bool.not_or]
    rw [Bool.and_comm]

/-- The `user_permissions` table after the cleanup fold: exactly the grant
rows whose user_id is not the id of any row in the processed list. -/
theorem cleanup_foldl_grants (l : List UserRow) (acc : Nat × DB) :
    (l.foldl DataCleanupService.cleanup_step acc).2.user_permissions
      = acc.2.user_permissions.filter
          (fun g => !(l.any (fun e => g.user_id == e.id))) := by
  induction l generalizing acc with
  | nil => simp
  | cons e l ih =>
    rw [List.foldl_cons, ih]
    show ((acc.2.user_permissions.filter (fun g => !(g.user_id == e.id))).filter
        (fun g => !(l.any (fun w => g.user_id == w.id))))
      = acc.2.user_permissions.filter
          (fun g => !((e :: l).any (fun w => g.user_id == w.id)))
    rw [List.filter_filter]
    apply List.filter_congr
    intro x _
    simp only [List.any_cons, Bool.not_or]
    rw [Bool.and_comm]

/-! ### Sample data used by concrete theorems and witnesses -/

/-- Settings with the defaults of src/config/settings.py (TTLs 30 min / 7 d). -/
def sampleSettings : Settings :=
  { secret_key := "k", algorithm := "HS256",
    access_token_expiry_minutes := 30, refresh_token_expiry_days := 7 }

/-- An ordinary active user with id 1. -/
def user1 : UserRow :=
  { id := 1, email := "alice@example.com",
    hashed_password := hash_password "password123", is_active := true,
    deleted_at := none, deletion_reason := none, role := Role.user,
    created_at := 0, last_login := none }

/-- An ordinary active user with id 5. -/
def user5 : UserRow :=
  { id := 5, email := "bob@example.com",
    hashed_password := hash_password "password123", is_active := true,
    deleted_at := none, deletion_reason := none, role := Role.user,
    created_at := 0, last_login := none }

/-- An ordinary active user with id 9. -/
def user9 : UserRow :=
  { id := 9, email := "carol@example.com",
    hashed_password := hash_password "password123", is_active := true,
    deleted_at := none, deletion_reason := none, role := Role.user,
    created_at := 0, last_login := none }

/-- An explicit grant of `admin:read_all_users` to user 5. -/
def grant5 : UserPermissionRow :=
  { id := 1, user_id := 5, permission := Permission.ADMIN_READ_ALL_USERS.value,
    granted_at := 0, granted_by := 9 }

/-- Store with only user 1. -/
def dbUser1 : DB :=
  { users := [user1], user_permissions := [], next_user_id := 2,
    next_permission_id := 1 }

/-- Store with users 5 and 9 and no explicit grants. -/
def dbNoGrants : DB :=
  { users := [user5, user9], user_permissions := [], next_user_id := 10,
    next_permission_id := 1 }

/-- Store with users 5 and 9 where user 5 holds one explicit grant. -/
def dbWithGrant : DB :=
  { users := [user5, user9], user_permissions := [grant5], next_user_id := 10,
    next_permission_id := 2 }

/-! ### Claims -/

/-- C2: the claim says `issue_token_pair(user_id)` yields a refresh token that
`refresh` accepts, producing a new valid pair whose access-token subject is
`user_id`, while an access token presented to `refresh` is rejected.  On the
code, `create_tokens` (= issue_token_pair) raises pydantic ValidationError on
every call — `TokenResponse.created_at` is required but never passed — so no
pair is ever issued, and a refresh token built by `create_refresh_token` for
the live user 1 makes `refresh_access_token` hit the same error instead of
returning a pair.  The rejection half does hold: the access token (no "type"
claim) is answered with None. -/
theorem c2_refresh_round_trip_bug :
    (AuthService.create_tokens sampleSettings 0 1 = Except.error PyErr.validationError)
    ∧ (AuthService.refresh_access_token sampleSettings dbUser1 0
        (create_refresh_token sampleSettings 0 "1") = Except.error PyErr.validationError)
    ∧ (AuthService.refresh_access_token sampleSettings dbUser1 0
        (create_access_token sampleSettings 0 "1") = Except.ok none) := by
  decide

/-- C3: the claim says effective permissions are the deduplicated union of the
role baseline and the explicit grants, the empty set for unknown users, and
the call never throws.  On the code: the unknown-user case and the
no-explicit-grants case behave as claimed, but as soon as a user has one
explicit grant, `list(set(role_permissions + explicit_permissions))` mixes
`Permission` members with raw row dicts and `set()` raises
`TypeError: unhashable type: dict`. -/
theorem c3_effective_permissions_bug :
    (AuthService.get_user_permissions dbNoGrants 999 = Except.ok [])
    ∧ (AuthService.get_user_permissions dbNoGrants 5
        = Except.ok ((ROLE_PERMISSIONS Role.user).map PyVal.perm))
    ∧ (AuthService.get_user_permissions dbWithGrant 5 = Except.error PyErr.typeError) := by
  decide

/-- C4: the claim says `issue_token_pair(user_id)` returns both tokens plus a
token_type, with `expires_in` = access TTL minutes × 60.  The code builds
exactly those keyword arguments (including `expires_in = 30 * 60` for the
default settings) but omits the required `created_at` field of the pydantic
model, so the constructor raises ValidationError on every call and nothing is
returned. -/
theorem c4_token_pair_pydantic_bug :
    (AuthService.create_tokens sampleSettings 0 1 = Except.error PyErr.validationError)
    ∧ ((AuthService.create_tokens_kwargs sampleSettings 0 1).expires_in = some (30 * 60))
    ∧ ((AuthService.create_tokens_kwargs sampleSettings 0 1).token
        = some (create_access_token sampleSettings 0 "1"))
    ∧ ((AuthService.create_tokens_kwargs sampleSettings 0 1).refresh_token
        = some (create_refresh_token sampleSettings 0 "1"))
    ∧ ((AuthService.create_tokens_kwargs sampleSettings 0 1).token_type = some "bearer")
    ∧ ((AuthService.create_tokens_kwargs sampleSettings 0 1).created_at = none) := by
  decide

/-- C5: the claim says require_ownership_or_permission succeeds silently on
ownership (even without the admin permission), succeeds for a non-owner iff
the admin permission was given and is held, and otherwise fails with
Forbidden.  On the code the ownership branch and the permission-not-held
branch behave as claimed, but a non-owner who holds the admin permission
through an explicit grant gets the `TypeError` of the permission-resolution
slip instead of silent success (the repository-level check confirms user 5
really holds `admin:read_all_users` in that store). -/
theorem c5_ownership_or_permission_bug :
    (AuthService.require_resource_ownership dbNoGrants 5 5
        (some Permission.ADMIN_READ_ALL_USERS) = Except.ok ())
    ∧ (AuthService.require_resource_ownership dbNoGrants 5 9
        (some Permission.ADMIN_READ_ALL_USERS) = Except.error (PyErr.http 403))
    ∧ (UserRepository.user_has_permission dbWithGrant 5
        Permission.ADMIN_READ_ALL_USERS = true)
    ∧ (AuthService.require_resource_ownership dbWithGrant 5 9
        (some Permission.ADMIN_READ_ALL_USERS) = Except.error PyErr.typeError) := by
  decide

/-- C9: a raised failure in one cleanup pass is caught: the recorded result
has status "failed", `next_cleanup` is rescheduled to 24 h after the failure
was handled, and the loop schedules another iteration; the loop breaks only
on task cancellation. -/
theorem c9_cleanup_loop_failure_resilience (st : DataCleanupService.SchedulerState)
    (startT endT : Int) (e : String) :
    ((DataCleanupService.loop_iteration st startT endT
        (DataCleanupService.PassOutcome.failure e)).1.last_cleanup_result.map
        (fun r => r.status) = some "failed")
    ∧ ((DataCleanupService.loop_iteration st startT endT
        (DataCleanupService.PassOutcome.failure e)).1.next_cleanup
        = some (endT + 86400))
    ∧ ((DataCleanupService.loop_iteration st startT endT
        (DataCleanupService.PassOutcome.failure e)).2
        = DataCleanupService.LoopControl.again)
    ∧ (∀ o, (DataCleanupService.loop_iteration st startT endT o).2
        = DataCleanupService.LoopControl.stop
        ↔ o = DataCleanupService.PassOutcome.cancelled) := by
  refine ⟨rfl, rfl, rfl, ?_⟩
  intro o
  cases o <;> simp [DataCleanupService.loop_iteration]

/-- C10: the email lookup used by authentication has no `is_active` /
`deleted_at` filter, so a soft-deleted (or otherwise inactive) user with the
correct credentials still authenticates and the very same row is returned —
soft deletion does not block login. -/
theorem c10_soft_deleted_user_can_authenticate (db : DB)
    (email password : String) (u : UserRow)
    (hlookup : UserRepository.get_user_by_email db email = some u)
    (hpw : verify_password password u.hashed_password = true)
    (_hdeleted : u.is_active = false ∨ u.deleted_at ≠ none) :
    AuthService.authenticate_user db email password = some u := by
  simp [AuthService.authenticate_user, hlookup, hpw]

/-- A soft-deleted user kept for the C10 witness. -/
def userDeleted : UserRow :=
  { id := 3, email := "gone@example.com",
    hashed_password := hash_password "hunter2abc", is_active := false,
    deleted_at := some 100, deletion_reason := some "user_request",
    role := Role.user, created_at := 0, last_login := none }

/-- Store with only the soft-deleted user. -/
def dbDeleted : DB :=
  { users := [userDeleted], user_permissions := [], next_user_id := 4,
    next_permission_id := 1 }

/-- Witness for C10: the concrete soft-deleted user still logs in. -/
theorem c10_soft_deleted_user_can_authenticate_witness :
    AuthService.authenticate_user dbDeleted "gone@example.com" "hunter2abc"
      = some userDeleted :=
  c10_soft_deleted_user_can_authenticate dbDeleted "gone@example.com"
    "hunter2abc" userDeleted (by decide) (by decide) (Or.inl (by decide))

/-- C6: after `soft_delete_user`, the default `get_user_by_id` lookup returns
nothing while the `include_deleted = true` lookup still returns the record
(now carrying the deletion stamp and reason, with is_active = false); a
subsequent `recover_user` restores is_active = true, clears `deleted_at` and
`deletion_reason`, and makes the user visible to the default lookup again. -/
theorem c6_soft_delete_recover_visibility (db : DB) (user_id : Nat)
    (reason : String) (now : Int) (hmem : ∃ u ∈ db.users, u.id = user_id) :
    (UserRepository.get_user_by_id
        (UserRepository.soft_delete_user db user_id reason now).2 user_id false = none)
    ∧ (∃ u, UserRepository.get_user_by_id
        (UserRepository.soft_delete_user db user_id reason now).2 user_id true = some u
        ∧ u.id = user_id ∧ u.is_active = false ∧ u.deleted_at = some now
        ∧ u.deletion_reason = some reason)
    ∧ (∃ v, UserRepository.get_user_by_id
        (UserRepository.recover_user
          (UserRepository.soft_delete_user db user_id reason now).2 user_id).2
        user_id false = some v
        ∧ v.id = user_id ∧ v.is_active = true ∧ v.deleted_at = none
        ∧ v.deletion_reason = none) := by
  obtain ⟨u, hu, hid⟩ := hmem
  have hsome : (db.users.find? (fun v => v.id == user_id)).isSome :=
    List.find?_isSome.mpr ⟨u, hu, by simp [hid]⟩
  obtain ⟨u₀, h₀⟩ := Option.isSome_iff_exists.mp hsome
  have hid₀ : u₀.id = user_id := by simpa using List.find?_some h₀
  refine ⟨?_, ?_, ?_⟩
  · -- default lookup after soft delete: every mapped row fails the predicate
    simp only [UserRepository.soft_delete_user, UserRepository.get_user_by_id,
      if_neg (by simp : ¬ (false = true))]
    rw [find?_map_eq db.users (UserRepository.soft_delete_update user_id reason now)
      _ (fun _ => false) ?_]
    · simp
    · intro a
      by_cases h : a.id = user_id
      · simp [UserRepository.soft_delete_update, h]
      · simp [UserRepository.soft_delete_update, h]
  · -- include_deleted lookup after soft delete: the (updated) row is found
    simp only [UserRepository.soft_delete_user, UserRepository.get_user_by_id,
      if_pos rfl]
    rw [find?_map_eq db.users (UserRepository.soft_delete_update user_id reason now)
      _ (fun v => v.id == user_id) ?_]
    · rw [h₀]
      refine ⟨UserRepository.soft_delete_update user_id reason now u₀, rfl, ?_⟩
      simp [UserRepository.soft_delete_update, hid₀]
    · intro a
      by_cases h : a.id = user_id
      · simp [UserRepository.soft_delete_update, h]
      · simp [UserRepository.soft_delete_update, h]
  · -- default lookup after recover: the row is visible again with the
    -- deletion markers cleared
    simp only [UserRepository.soft_delete_user, UserRepository.recover_user,
      UserRepository.get_user_by_id, if_neg (by simp : ¬ (false = true)),
      List.map_map]
    rw [find?_map_eq db.users
      (UserRepository.recover_update user_id ∘
        UserRepository.soft_delete_update user_id reason now)
      _ (fun v => v.id == user_id) ?_]
    · rw [h₀]
      refine ⟨_, rfl, ?_⟩
      simp [UserRepository.recover_update, UserRepository.soft_delete_update, hid₀]
    · intro a
      by_cases h : a.id = user_id
      · simp [UserRepository.recover_update, UserRepository.soft_delete_update, h]
      · have hb : (a.id == user_id) = false := by simpa using h
        simp [UserRepository.recover_update, UserRepository.soft_delete_update, h, hb]

/-- Witness for C6 at the one-user store. -/
theorem c6_soft_delete_recover_visibility_witness :
    (UserRepository.get_user_by_id
        (UserRepository.soft_delete_user dbUser1 1 "user_request" 50).2 1 false = none)
    ∧ (∃ u, UserRepository.get_user_by_id
        (UserRepository.soft_delete_user dbUser1 1 "user_request" 50).2 1 true = some u
        ∧ u.id = 1 ∧ u.is_active = false ∧ u.deleted_at = some 50
        ∧ u.deletion_reason = some "user_request")
    ∧ (∃ v, UserRepository.get_user_by_id
        (UserRepository.recover_user
          (UserRepository.soft_delete_user dbUser1 1 "user_request" 50).2 1).2
        1 false = some v
        ∧ v.id = 1 ∧ v.is_active = true ∧ v.deleted_at = none
        ∧ v.deletion_reason = none) :=
  c6_soft_delete_recover_visibility dbUser1 1 "user_request" 50
    ⟨user1, by decide, by decide⟩

/-- An empty store. -/
def dbEmpty : DB :=
  { users := [], user_permissions := [], next_user_id := 1, next_permission_id := 1 }

/-- C1: the claim says that for a fresh email and a password of length at
least 8, `register_user` followed by `authenticate_user` with the same
credentials succeeds and returns the same identity.  On the code this is
impossible: `create_user` evaluates `hashed_password.decode('utf-8')` on the
`str` digest returned by passlib's `CryptContext.hash` (user_repo.py:25), so
every registration raises AttributeError before the INSERT — concretely on
the empty store with valid credentials, and in general `register_user` never
returns a user on any input. -/
theorem c1_register_attribute_error_bug :
    (AuthService.register_user dbEmpty "alice@example.com" "password123" 0
      = Except.error PyErr.attributeError)
    ∧ (∀ (db : DB) (email password : String) (now : Int) (u : UserRow) (db₂ : DB),
        AuthService.register_user db email password now ≠ Except.ok (u, db₂)) := by
  constructor
  · decide
  · intro db email password now u db₂ hcontra
    unfold AuthService.register_user at hcontra
    cases hget : UserRepository.get_user_by_email db email with
    | some w =>
      rw [hget] at hcontra
      exact Except.noConfusion hcontra
    | none =>
      rw [hget] at hcontra
      by_cases hlen : password.length < 8
      · rw [if_pos hlen] at hcontra
        exact Except.noConfusion hcontra
      · rw [if_neg hlen] at hcontra
        rw [show UserRepository.create_user db email password now
            = Except.error PyErr.attributeError from rfl] at hcontra
        exact Except.noConfusion hcontra

/-- C8: for a user visible to the default lookup who already holds an
explicit grant of a permission, the grant endpoint fails with Conflict (409);
`revoke_user_permission` then reports a removed row, and granting the same
(user, permission) pair afterwards succeeds. -/
theorem c8_grant_conflict_and_regrant (db : DB) (user_id : Nat) (p : Permission)
    (granter : Nat) (now : Int) (u : UserRow)
    (hvis : UserRepository.get_user_by_id db user_id false = some u)
    (hheld : UserRepository.user_has_permission db user_id p = true) :
    (admin_grant_permission db user_id p granter now = Except.error (PyErr.http 409))
    ∧ ((UserRepository.revoke_user_permission db user_id p).1 = true)
    ∧ (∃ row db₂, admin_grant_permission
        (UserRepository.revoke_user_permission db user_id p).2 user_id p granter now
        = Except.ok (row, db₂)) := by
  refine ⟨?_, ?_, ?_⟩
  · simp [admin_grant_permission, hvis, hheld]
  · exact hheld
  · have hvis2 : UserRepository.get_user_by_id
        (UserRepository.revoke_user_permission db user_id p).2 user_id false
        = some u := hvis
    have hnot : UserRepository.user_has_permission
        (UserRepository.revoke_user_permission db user_id p).2 user_id p = false := by
      simp only [UserRepository.user_has_permission,
        UserRepository.revoke_user_permission, Bool.eq_false_iff, ne_eq,
        List.any_eq_true, List.mem_filter, not_exists, not_and]
      intro g hg hpg
      simp [hpg] at hg
    simp only [admin_grant_permission, hvis2, hnot]
    exact ⟨_, _, rfl⟩

/-- Witness for C8: user 5 already holds `admin:read_all_users`. -/
theorem c8_grant_conflict_and_regrant_witness :
    (admin_grant_permission dbWithGrant 5 Permission.ADMIN_READ_ALL_USERS 9 10
        = Except.error (PyErr.http 409))
    ∧ ((UserRepository.revoke_user_permission dbWithGrant 5
        Permission.ADMIN_READ_ALL_USERS).1 = true)
    ∧ (∃ row db₂, admin_grant_permission
        (UserRepository.revoke_user_permission dbWithGrant 5
          Permission.ADMIN_READ_ALL_USERS).2 5 Permission.ADMIN_READ_ALL_USERS 9 10
        = Except.ok (row, db₂)) :=
  c8_grant_conflict_and_regrant dbWithGrant 5 Permission.ADMIN_READ_ALL_USERS 9 10
    user5 (by decide) (by decide)

/-- C7: for a user soft-deleted at time T (is_active = false), with the grace
period of 30 days, a cleanup pass at T + 29 days leaves the user resolvable,
while a pass at T + 31 days hard-deletes the user and all of the user's
permission grants: afterwards neither the default nor the
`include_deleted = true` lookup resolves the user and the user's grant rows
are gone.  (Times are seconds; a day is 86400.) -/
theorem c7_cleanup_grace_period (db : DB) (user_id : Nat) (T : Int) (u : UserRow)
    (hnodup : (db.users.map (fun v => v.id)).Nodup)
    (hmem : u ∈ db.users) (hid : u.id = user_id)
    (hdel : u.deleted_at = some T) (hact : u.is_active = false) :
    (UserRepository.get_user_by_id
        (DataCleanupService.cleanup_expired_deletions 30 (T + 29 * 86400) db).2
        user_id true = some u)
    ∧ (UserRepository.get_user_by_id
        (DataCleanupService.cleanup_expired_deletions 30 (T + 31 * 86400) db).2
        user_id true = none)
    ∧ (UserRepository.get_user_by_id
        (DataCleanupService.cleanup_expired_deletions 30 (T + 31 * 86400) db).2
        user_id false = none)
    ∧ (UserRepository.get_user_permissions
        (DataCleanupService.cleanup_expired_deletions 30 (T + 31 * 86400) db).2
        user_id = []) := by
  have hu1 : (DataCleanupService.cleanup_expired_deletions 30 (T + 29 * 86400) db).2.users
      = db.users.filter (fun v =>
          !((UserRepository.get_expired_soft_deleted_users db
              ((T + 29 * 86400) - 30 * 86400)).any (fun e => v.id == e.id))) := by
    simp only [DataCleanupService.cleanup_expired_deletions]
    exact cleanup_foldl_users _ _
  have hu2 : (DataCleanupService.cleanup_expired_deletions 30 (T + 31 * 86400) db).2.users
      = db.users.filter (fun v =>
          !((UserRepository.get_expired_soft_deleted_users db
              ((T + 31 * 86400) - 30 * 86400)).any (fun e => v.id == e.id))) := by
    simp only [DataCleanupService.cleanup_expired_deletions]
    exact cleanup_foldl_users _ _
  have hg2 : (DataCleanupService.cleanup_expired_deletions 30 (T + 31 * 86400) db).2.user_permissions
      = db.user_permissions.filter (fun g =>
          !((UserRepository.get_expired_soft_deleted_users db
              ((T + 31 * 86400) - 30 * 86400)).any (fun e => g.user_id == e.id))) := by
    simp only [DataCleanupService.cleanup_expired_deletions]
    exact cleanup_foldl_grants _ _
  have hnot1 : ∀ e ∈ UserRepository.get_expired_soft_deleted_users db
      ((T + 29 * 86400) - 30 * 86400), (u.id == e.id) = false := by
    intro e he
    simp only [UserRepository.get_expired_soft_deleted_users, List.mem_filter] at he
    obtain ⟨hemem, hepred⟩ := he
    by_cases hbe : u.id = e.id
    · exfalso
      have heu : e = u :=
        userRow_eq_of_nodup_ids db.users hnodup e u hemem hmem hbe.symm
      subst heu
      rw [hdel] at hepred
      simp only [Bool.and_eq_true, decide_eq_true_eq] at hepred
      omega
    · simp [hbe]
  have hmem2 : u ∈ UserRepository.get_expired_soft_deleted_users db
      ((T + 31 * 86400) - 30 * 86400) := by
    simp only [UserRepository.get_expired_soft_deleted_users, List.mem_filter]
    refine ⟨hmem, ?_⟩
    rw [hdel, hact]
    simp only [Bool.and_eq_true, decide_eq_true_eq]
    exact ⟨by omega, rfl⟩
  have hvnot : ∀ v ∈ (DataCleanupService.cleanup_expired_deletions 30
      (T + 31 * 86400) db).2.users, (v.id == user_id) = false := by
    intro v hv
    rw [hu2] at hv
    obtain ⟨hvmem, hq⟩ := List.mem_filter.mp hv
    have hany : ((UserRepository.get_expired_soft_deleted_users db
        ((T + 31 * 86400) - 30 * 86400)).any (fun e => v.id == e.id)) = false := by
      simpa using hq
    have hvu := List.any_eq_false.mp hany u hmem2
    by_cases hve : v.id = user_id
    · exact absurd (by simp [hve, hid]) hvu
    · simp [hve]
  refine ⟨?_, ?_, ?_, ?_⟩
  · -- pass at T + 29 d: the user row survives and is still resolvable
    have hdef : UserRepository.get_user_by_id
        (DataCleanupService.cleanup_expired_deletions 30 (T + 29 * 86400) db).2
        user_id true
        = (DataCleanupService.cleanup_expired_deletions 30
            (T + 29 * 86400) db).2.users.find? (fun v => v.id == user_id) := rfl
    rw [hdef, hu1]
    apply find?_eq_some_of_unique
    · refine List.mem_filter.mpr ⟨hmem, ?_⟩
      have hany : ((UserRepository.get_expired_soft_deleted_users db
          ((T + 29 * 86400) - 30 * 86400)).any (fun e => u.id == e.id)) = false := by
        rw [List.any_eq_false]
        intro e he
        simp [hnot1 e he]
      rw [hany]
      rfl
    · simp [hid]
    · intro v hv hpv
      have hvmem : v ∈ db.users := (List.mem_filter.mp hv).1
      have hvid : v.id = user_id := by simpa using hpv
      exact userRow_eq_of_nodup_ids db.users hnodup v u hvmem hmem (by rw [hvid, hid])
  · -- pass at T + 31 d: even include_deleted no longer resolves the user
    have hdef : UserRepository.get_user_by_id
        (DataCleanupService.cleanup_expired_deletions 30 (T + 31 * 86400) db).2
        user_id true
        = (DataCleanupService.cleanup_expired_deletions 30
            (T + 31 * 86400) db).2.users.find? (fun v => v.id == user_id) := rfl
    rw [hdef, List.find?_eq_none]
    intro x hx
    simp [hvnot x hx]
  · -- and the default lookup does not either
    have hdef : UserRepository.get_user_by_id
        (DataCleanupService.cleanup_expired_deletions 30 (T + 31 * 86400) db).2
        user_id false
        = (DataCleanupService.cleanup_expired_deletions 30
            (T + 31 * 86400) db).2.users.find?
            (fun v => v.id == user_id && v.is_active && v.deleted_at.isNone) := rfl
    rw [hdef, List.find?_eq_none]
    intro x hx
    simp [hvnot x hx]
  · -- and the user's grant rows are gone
    simp only [UserRepository.get_user_permissions]
    rw [hg2, List.filter_filter, List.filter_eq_nil_iff]
    intro g hg
    simp only [Bool.and_eq_true, not_and]
    intro hgu hany
    have hgid : g.user_id = user_id := by simpa using hgu
    have hfalse : ((UserRepository.get_expired_soft_deleted_users db
        ((T + 31 * 86400) - 30 * 86400)).any (fun e => g.user_id == e.id)) = false := by
      simpa using hany
    have hu' := List.any_eq_false.mp hfalse u hmem2
    rw [hgid, hid] at hu'
    simp at hu'

/-- A user soft-deleted at time 0, for the C7 witness. -/
def userExpired : UserRow :=
  { id := 2, email := "expired@example.com",
    hashed_password := hash_password "password123", is_active := false,
    deleted_at := some 0, deletion_reason := some "user_request",
    role := Role.user, created_at := 0, last_login := none }

/-- A grant row belonging to the soft-deleted user. -/
def grantExpired : UserPermissionRow :=
  { id := 7, user_id := 2, permission := "user:gen_insights", granted_at := 0,
    granted_by := 1 }

/-- Store with the soft-deleted user and that user's grant. -/
def dbExpired : DB :=
  { users := [userExpired], user_permissions := [grantExpired], next_user_id := 3,
    next_permission_id := 8 }

/-- Witness for C7 at T = 0 on the one-user store. -/
theorem c7_cleanup_grace_period_witness :
    (UserRepository.get_user_by_id
        (DataCleanupService.cleanup_expired_deletions 30 (0 + 29 * 86400) dbExpired).2
        2 true = some userExpired)
    ∧ (UserRepository.get_user_by_id
        (DataCleanupService.cleanup_expired_deletions 30 (0 + 31 * 86400) dbExpired).2
        2 true = none)
    ∧ (UserRepository.get_user_by_id
        (DataCleanupService.cleanup_expired_deletions 30 (0 + 31 * 86400) dbExpired).2
        2 false = none)
    ∧ (UserRepository.get_user_permissions
        (DataCleanupService.cleanup_expired_deletions 30 (0 + 31 * 86400) dbExpired).2
        2 = []) :=
  c7_cleanup_grace_period dbExpired 2 0 userExpired (by decide) (by decide)
    (by decide) (by decide) (by decide)

end HomeStats
